import Mathlib

/-!
Shallow embedding of `src/server.js` (meeting-transcript summary mailer).
The repository holds two server variants concatenated in one file: a
Resend-based variant (redirect-to-operator delivery) and a
nodemailer-based variant (direct multi-send delivery).  Both variants
share the upload handler, the summary-generation handler shape, and the
row-rendering part of `formatEmailContent`.

External collaborators (express, multer, fs, the OpenAI client, the
Resend client, the nodemailer transporter, the JSON.parse builtin) are
modelled as explicit inputs to the embedded handlers; the code under
`src/` is embedded directly.
-/

/-- An action item as produced by the model and consumed by the renderer.
In the JS source these are plain objects whose `item`, `owner` and
`timeline` properties may each be absent (`undefined`), modelled here as
`Option String`. -/
structure ActionItem where
  item : Option String
  owner : Option String
  timeline : Option String
deriving DecidableEq

/-- A recipient as received in the request body: either a bare string or
a record whose `email` property may be absent, plus arbitrary other
string properties. -/
inductive Recipient where
  | str (s : String)
  | record (email : Option String) (otherFields : List (String × String))
deriving DecidableEq

/-- JS template-literal coercion of a possibly-undefined string property:
interpolating `undefined` yields the text "undefined". -/
def jsInterp : Option String → String
  | some s => s
  | none => "undefined"

/-- JS `x || d` for a possibly-undefined string `x`: both `undefined` and
the empty string are falsy, so either selects the default `d`. -/
def jsOrElse (x : Option String) (d : String) : String :=
  match x with
  | some s => if s = "" then d else s
  | none => d

/-- Embeds `r => typeof r === 'string' ? r : r.email || r` followed by the
string coercion performed by `.join(', ')`: a bare string is kept
verbatim; a record with a truthy (non-empty) `email` yields that email;
otherwise the expression evaluates to the record itself, which the join
coerces to "[object Object]" (the default coercion of a plain object). -/
def normalizeRecipient : Recipient → String
  | .str s => s
  | .record email _ =>
      match email with
      | some e => if e = "" then "[object Object]" else e
      | none => "[object Object]"

/-- Embeds lines 189-191 of the Resend variant:
`recipients.length > 0 ? recipients.map(...).join(', ') : 'No recipients selected'`. -/
def recipientsList (recipients : List Recipient) : String :=
  if recipients.length > 0 then
    String.intercalate ", " (recipients.map normalizeRecipient)
  else
    "No recipients selected"

/-- Template text of the Resend-variant email up to the interpolated
recipients list. -/
def resendHtmlBeforeRecipients : String :=
  "\n    <html>\n      <body style=\"font-family: Arial, sans-serif; line-height: 1.6; color: #333;\">\n        <div style=\"background-color: #fffbcc; padding: 15px; border-radius: 5px; margin-bottom: 20px; border: 1px solid #f5e642;\">\n          <strong>📧 Intended Recipients:</strong> "

/-- Template text of the Resend-variant email between the recipients list
and the interpolated summary. -/
def resendHtmlAfterRecipients : String :=
  "<br>\n          <em style=\"color: #666; font-size: 14px;\">Note: This test email was sent only to markgleasonwork@gmail.com</em>\n        </div>\n        \n        <h2>Meeting Summary</h2>\n        <div style=\"background-color: #f4f4f4; padding: 15px; border-radius: 5px;\">\n          "

/-- Template text shared by both variants from after the interpolated
summary through the action-items table header. -/
def htmlAfterSummary : String :=
  "\n        </div>\n        \n        <h2>Action Items</h2>\n        <table style=\"width: 100%; border-collapse: collapse; margin-top: 10px;\">\n          <tr style=\"background-color: #e9e9e9;\">\n            <th style=\"padding: 10px; text-align: left; border: 1px solid #ddd;\">Action Item</th>\n            <th style=\"padding: 10px; text-align: left; border: 1px solid #ddd;\">Owner</th>\n            <th style=\"padding: 10px; text-align: left; border: 1px solid #ddd;\">Timeline</th>\n          </tr>"

/-- Row template text before the interpolated `item.item`. -/
def rowBeforeItem : String :=
  "\n          <tr>\n            <td style=\"padding: 10px; border: 1px solid #ddd;\">"

/-- Row template text between `item.item` and `item.owner`. -/
def rowBeforeOwner : String :=
  "</td>\n            <td style=\"padding: 10px; border: 1px solid #ddd;\">"

/-- Row template text between `item.owner` and the timeline expression. -/
def rowBeforeTimeline : String :=
  "</td>\n            <td style=\"padding: 10px; border: 1px solid #ddd;\">"

/-- Row template text after the timeline expression. -/
def rowClose : String := "</td>\n          </tr>"

/-- Closing template text appended after the forEach loop in both
variants. -/
def emailFooter : String := "\n        </table>\n      </body>\n    </html>"

/-- Embeds the body of the `actionItems.forEach` callback of both
variants: one table row with the three interpolated cells, where
`item.timeline || 'Not specified'` supplies the timeline fallback. -/
def actionItemRow (item : ActionItem) : String :=
  rowBeforeItem ++ jsInterp item.item ++
  rowBeforeOwner ++ jsInterp item.owner ++
  rowBeforeTimeline ++ jsOrElse item.timeline "Not specified" ++
  rowClose

/-- Concatenation of a list of rendered rows. -/
def strConcat (l : List String) : String :=
  l.foldr (fun a b => a ++ b) ""

/-- Embeds `formatEmailContent(summary, actionItems, recipients = [])` of
the Resend variant (lines 187-229): build the header template with the
recipients banner and the newline-to-br summary, append one row per
action item via forEach, then append the footer. -/
def formatEmailContent (summary : String) (actionItems : List ActionItem)
    (recipients : List Recipient := []) : String :=
  let html := resendHtmlBeforeRecipients ++ recipientsList recipients ++
    resendHtmlAfterRecipients ++ summary.replace "\n" "<br>" ++ htmlAfterSummary
  let html := actionItems.foldl (fun acc item => acc ++ actionItemRow item) html
  html ++ emailFooter

/-- Template text of the nodemailer-variant email up to the interpolated
summary (this variant has no recipients banner). -/
def nmHtmlBeforeSummary : String :=
  "\n    <html>\n      <body style=\"font-family: Arial, sans-serif; line-height: 1.6; color: #333;\">\n        <h2>Meeting Summary</h2>\n        <div style=\"background-color: #f4f4f4; padding: 15px; border-radius: 5px;\">\n          "

/-- Embeds `formatEmailContent(summary, actionItems)` of the nodemailer
variant (lines 401-433). -/
def formatEmailContentNM (summary : String) (actionItems : List ActionItem) : String :=
  let html := nmHtmlBeforeSummary ++ summary.replace "\n" "<br>" ++ htmlAfterSummary
  let html := actionItems.foldl (fun acc item => acc ++ actionItemRow item) html
  html ++ emailFooter

/-! ### File intake (`POST /upload`, both variants, lines 54-85) -/

/-- An uploaded file as handed over by multer: original filename plus the
bytes written to the temporary location (read back as UTF-8 text). -/
structure UploadedFile where
  originalname : String
  data : String
deriving DecidableEq

/-- ASCII lower-casing of a string, as `toLowerCase` acts on the ASCII
filenames involved here. -/
def toLowerStr (s : String) : String := String.mk (s.data.map Char.toLower)

/-- Split a character list on a separator character. -/
def splitOnChar (sep : Char) : List Char → List (List Char)
  | [] => [[]]
  | c :: cs =>
      let r := splitOnChar sep cs
      if c = sep then [] :: r
      else (c :: r.headD []) :: r.tail

/-- Split a string on a separator character. -/
def splitStr (sep : Char) (s : String) : List String :=
  (splitOnChar sep s.data).map String.mk

/-- Modelled from the spec: the external csv-parser collaborator used by
`parseCSV` (src/server.js lines 176-185 wraps it around a file stream).
The header row determines column names; each data row yields one record
keyed by the header columns, in row order; a header-only input yields an
empty sequence. -/
def parseCSV (data : String) : List (List (String × String)) :=
  match (splitStr '\n' data).filter (fun row => row ≠ "") with
  | [] => []
  | header :: rows =>
      let keys := splitStr ',' header
      rows.map (fun row => keys.zip (splitStr ',' row))

/-- Content of a processed upload entry: raw transcript text for `.txt`,
parsed contact rows for `.csv`. -/
inductive FileContent where
  | text (s : String)
  | contacts (rows : List (List (String × String)))
deriving DecidableEq

/-- One entry of the upload response `files` array. -/
structure ProcessedFile where
  name : String
  type : String
  content : FileContent
deriving DecidableEq

/-- Index of the last dot in a list of characters. -/
def lastDotPos (cs : List Char) : Option Nat :=
  ((cs.enum.filter (fun p => p.2 = '.')).getLast?).map (fun p => p.1)

/-- Model of Node `path.extname` on posix names (multer original
filenames): the extension starts at the last dot of the final path
segment; a name with no dot, or whose only dot starts the segment (a
dotfile), has extension "". -/
def extname (p : String) : String :=
  let base := (splitStr '/' p).getLastD ""
  match lastDotPos base.data with
  | none => ""
  | some 0 => ""
  | some i => String.mk (base.data.drop i)

/-- One iteration of the upload loop (lines 59-78): classify by the
lower-cased extension, pushing a tagged entry for `.txt` and `.csv` and
pushing nothing otherwise. -/
def uploadStep (acc : List ProcessedFile) (f : UploadedFile) : List ProcessedFile :=
  let fileType := toLowerStr (extname f.originalname)
  if fileType = ".txt" then
    acc ++ [⟨f.originalname, "transcript", .text f.data⟩]
  else if fileType = ".csv" then
    acc ++ [⟨f.originalname, "contacts", .contacts (parseCSV f.data)⟩]
  else
    acc

/-- The upload loop over the whole batch. -/
def processUpload (files : List UploadedFile) : List ProcessedFile :=
  files.foldl uploadStep []

/-- Per-file classification, for stating what the loop does. -/
def classifyFile (f : UploadedFile) : Option ProcessedFile :=
  let fileType := toLowerStr (extname f.originalname)
  if fileType = ".txt" then
    some ⟨f.originalname, "transcript", .text f.data⟩
  else if fileType = ".csv" then
    some ⟨f.originalname, "contacts", .contacts (parseCSV f.data)⟩
  else
    none

/-- Body of the upload response `res.json({ success: true, files })`. -/
structure UploadResponse where
  success : Bool
  files : List ProcessedFile
deriving DecidableEq

/-- The `POST /upload` handler on an in-memory batch (storage writes and
reads, an external collaborator, are assumed to succeed; on failure the
whole request would take the catch branch instead). -/
def uploadHandler (files : List UploadedFile) : UploadResponse :=
  ⟨true, processUpload files⟩

/-! ### Summary generation (`POST /generate-summary`, lines 88-131 and
320-364; both variants parse the model reply and spread it into the
response) -/

/-- A JSON value as produced by the JSON.parse builtin. -/
inductive JsonVal where
  | str (s : String)
  | num (n : Int)
  | bool (b : Bool)
  | null
  | arr (xs : List JsonVal)
  | obj (fields : List (String × JsonVal))

/-- Own enumerable properties contributed by `...result` in the object
literal `{ success: true, ...result }`: an object spreads its fields, an
array or string spreads index-keyed entries, and primitives spread
nothing. -/
def spreadFields : JsonVal → List (String × JsonVal)
  | .obj fs => fs
  | .arr xs => xs.enum.map (fun p => (toString p.1, p.2))
  | .str s => s.toList.enum.map (fun p => (toString p.1, JsonVal.str (String.singleton p.2)))
  | _ => []

/-- Property lookup on a JS object literal built from a field list in
which later entries override earlier ones. -/
def jsGet (fields : List (String × JsonVal)) (key : String) : Option JsonVal :=
  ((fields.filter (fun p => p.1 = key)).getLast?).map (fun p => p.2)

/-- HTTP status plus JSON body of the generate-summary response. -/
structure GenSummaryResponse where
  status : Nat
  body : List (String × JsonVal)

/-- Outcome of the upstream interaction, an external collaborator: either
the completion call threw (network/auth/rate limit), or it returned raw
text which the JSON.parse builtin then either rejects or turns into a
value. -/
inductive UpstreamResult where
  | failure (message : String)
  | response (parsed : Except String JsonVal)

/-- Embeds the `POST /generate-summary` handler: a thrown upstream error
or a JSON.parse error reaches the catch branch as a 500 failure body;
a parsed value is spread unvalidated into `{ success: true, ...result }`
and returned with status 200. -/
def generateSummaryHandler : UpstreamResult → GenSummaryResponse
  | .failure m => ⟨500, [("success", .bool false), ("error", .str m)]⟩
  | .response (.error m) => ⟨500, [("success", .bool false), ("error", .str m)]⟩
  | .response (.ok v) => ⟨200, ("success", .bool true) :: spreadFields v⟩

/-! ### Dispatch, Resend variant (`POST /send-emails`, lines 134-173) -/

/-- The fixed operator address every Resend-variant message is sent to. -/
def testEmail : String := "markgleasonwork@gmail.com"

/-- One call to `resend.emails.send`. -/
structure SendCall where
  fromAddr : String
  toAddr : String
  subject : String
  html : String
deriving DecidableEq

/-- Outcome of the single `resend.emails.send` call (the SDK returns a
`{ data, error }` pair). -/
inductive ResendOutcome where
  | ok (dataId : String)
  | err (message : String)
deriving DecidableEq

/-- Shape of the send-emails JSON responses (status, success flag,
optional error text, optional message text). -/
structure JsonResp where
  status : Nat
  success : Bool
  error : Option String
  message : Option String
deriving DecidableEq

/-- Embeds the Resend-variant `POST /send-emails` handler, returning the
list of delivery calls issued together with the response.
`resendConfigured` models whether RESEND_API_KEY was present at startup
(line 19); when absent `resend` is null and the handler returns the
configuration error without calling anything. -/
def sendEmailsResend (resendConfigured : Bool) (recipients : List Recipient)
    (summary : String) (actionItems : List ActionItem) (outcome : ResendOutcome) :
    List SendCall × JsonResp :=
  if resendConfigured = false then
    ([], ⟨500, false,
      some "Resend API key not configured. Please add RESEND_API_KEY to environment variables.",
      none⟩)
  else
    let emailContent := formatEmailContent summary actionItems recipients
    let call : SendCall :=
      ⟨"Meeting Transcript Utility <markgleasonwork@gmail.com>", testEmail,
        "Meeting Summary and Action Items", emailContent⟩
    match outcome with
    | .err m => ([call], ⟨400, false, some m, none⟩)
    | .ok _ => ([call],
        ⟨200, true, none,
          some ("Email sent to " ++ testEmail ++ " with intended recipients listed in the email body")⟩)

/-! ### Dispatch, nodemailer variant (`POST /send-emails`, lines 367-387) -/

/-- JS property access `recipient.email`: a record yields its `email`
field (undefined when absent); a bare string has no such property. -/
def recipEmailField : Recipient → Option String
  | .str _ => none
  | .record e _ => e

/-- One call to `transporter.sendMail`; `fromAddr` carries
`process.env.EMAIL_FROM` and `toAddr` carries `recipient.email`, either
of which may be undefined. -/
structure NMSendCall where
  fromAddr : Option String
  toAddr : Option String
  subject : String
  html : String
deriving DecidableEq

/-- The subject line used by both variants. -/
def nmSubject : String := "Meeting Summary and Action Items"

/-- The sendMail call issued for one recipient. -/
def mkNMCall (fromAddr : Option String) (emailContent : String) (r : Recipient) : NMSendCall :=
  ⟨fromAddr, recipEmailField r, nmSubject, emailContent⟩

/-- Embeds the `for (const recipient of recipients)` loop inside the try
block: awaited sendMail calls in list order; the first rejection jumps to
the catch branch, which responds 500 with that error and attempts no
further sends. Returns the calls issued so far plus the response. -/
def nmLoop (fromAddr : Option String) (emailContent : String)
    (send : NMSendCall → Except String Unit) :
    List Recipient → List NMSendCall → List NMSendCall × JsonResp
  | [], calls => (calls, ⟨200, true, none, some "Emails sent successfully"⟩)
  | r :: rest, calls =>
      match send (mkNMCall fromAddr emailContent r) with
      | .error m => (calls ++ [mkNMCall fromAddr emailContent r], ⟨500, false, some m, none⟩)
      | .ok _ => nmLoop fromAddr emailContent send rest (calls ++ [mkNMCall fromAddr emailContent r])

/-- Embeds the nodemailer-variant `POST /send-emails` handler: render the
email once, then send it to each recipient sequentially. -/
def sendEmailsNodemailer (fromAddr : Option String) (recipients : List Recipient)
    (summary : String) (actionItems : List ActionItem)
    (send : NMSendCall → Except String Unit) : List NMSendCall × JsonResp :=
  nmLoop fromAddr (formatEmailContentNM summary actionItems) send recipients []

/-! ### Dynamically typed view of the renderer -/

/-- A JS argument position expected to hold a value of shape `α`: either
such a value, or any other JS value (including `undefined`), carried with
its display text. -/
inductive JSArg (α : Type) where
  | isA (a : α)
  | notA (printed : String)
deriving DecidableEq

/-- The Resend-variant `formatEmailContent` under JS dynamic typing, in
source evaluation order: the default parameter `recipients = []` applies
when that argument is absent (undefined); `summary.replace` throws a
TypeError on any non-string; `actionItems.forEach` throws a TypeError on
any non-array; otherwise the result is the HTML document. The error
strings approximate the JS TypeError texts. -/
def formatEmailContentDyn (summary : JSArg String) (actionItems : JSArg (List ActionItem))
    (recipients : Option (List Recipient)) : Except String String :=
  let rs := recipients.getD []
  match summary with
  | .notA v => .error ("TypeError: cannot call replace on " ++ v)
  | .isA s =>
      match actionItems with
      | .notA v => .error ("TypeError: cannot call forEach on " ++ v)
      | .isA items => .ok (formatEmailContent s items rs)

/-- Accumulating a row per item with foldl, as forEach does, equals the
header followed by the concatenation of the rendered rows in input
order. -/
theorem foldl_actionItemRow (items : List ActionItem) (init : String) :
    items.foldl (fun acc item => acc ++ actionItemRow item) init
      = init ++ strConcat (items.map actionItemRow) := by
  induction items generalizing init with
  | nil => simp [strConcat]
  | cons it tl ih =>
      rw [List.foldl_cons, ih, List.map_cons]
      simp [strConcat, String.append_assoc]

/-- One upload-loop step appends exactly the classification of the file,
if any. -/
theorem uploadStep_eq (acc : List ProcessedFile) (f : UploadedFile) :
    uploadStep acc f = acc ++ (classifyFile f).toList := by
  unfold uploadStep classifyFile
  by_cases h1 : toLowerStr (extname f.originalname) = ".txt"
  · simp [h1]
  · by_cases h2 : toLowerStr (extname f.originalname) = ".csv" <;> simp [h1, h2]

/-- The upload loop, started from any accumulator, appends the
classifications of the files in order. -/
theorem processUpload_go (files : List UploadedFile) (acc : List ProcessedFile) :
    files.foldl uploadStep acc = acc ++ files.filterMap classifyFile := by
  induction files generalizing acc with
  | nil => simp
  | cons f tl ih =>
      rw [List.foldl_cons, ih, uploadStep_eq]
      cases h : classifyFile f <;> simp [List.filterMap_cons, h]

/-- The upload loop classifies each file independently, in order. -/
theorem processUpload_eq (files : List UploadedFile) :
    processUpload files = files.filterMap classifyFile := by
  simpa using processUpload_go files []

/-- When every send in the remaining list succeeds, the loop issues one
call per recipient in order and reports success. -/
theorem nmLoop_ok (fromAddr : Option String) (emailContent : String)
    (send : NMSendCall → Except String Unit) (recipients : List Recipient)
    (h : ∀ x ∈ recipients, send (mkNMCall fromAddr emailContent x) = .ok ())
    (calls : List NMSendCall) :
    nmLoop fromAddr emailContent send recipients calls
      = (calls ++ recipients.map (mkNMCall fromAddr emailContent),
         ⟨200, true, none, some "Emails sent successfully"⟩) := by
  induction recipients generalizing calls with
  | nil => simp [nmLoop]
  | cons x tl ih =>
      have hx := h x (List.mem_cons_self x tl)
      rw [nmLoop, hx]
      rw [ih (fun y hy => h y (List.mem_cons_of_mem x hy))]
      simp

/-- When every send for the prefix succeeds and the send for `r` fails
with `e`, the loop issues exactly the prefix calls plus the failing call,
attempts nothing after it, and reports `e`. -/
theorem nmLoop_err (fromAddr : Option String) (emailContent : String)
    (send : NMSendCall → Except String Unit) (r : Recipient) (rest : List Recipient)
    (e : String) (hr : send (mkNMCall fromAddr emailContent r) = .error e)
    (p : List Recipient)
    (hp : ∀ x ∈ p, send (mkNMCall fromAddr emailContent x) = .ok ())
    (calls : List NMSendCall) :
    nmLoop fromAddr emailContent send (p ++ r :: rest) calls
      = (calls ++ (p ++ [r]).map (mkNMCall fromAddr emailContent),
         ⟨500, false, some e, none⟩) := by
  induction p generalizing calls with
  | nil => rw [List.nil_append, nmLoop, hr]; simp
  | cons x tl ih =>
      have hx := hp x (List.mem_cons_self x tl)
      rw [List.cons_append, nmLoop, hx]
      rw [ih (fun y hy => hp y (List.mem_cons_of_mem x hy))]
      simp

/-- C1 counterexample: when the model reply parses as the empty JSON
object, the handler returns a 200 success response whose body carries
`success: true` but has neither a `summary` key nor an `actionItems`
key, so a success result can be missing both keys. -/
theorem generateSummary_success_missing_keys :
    (generateSummaryHandler (.response (.ok (.obj [])))).status = 200 ∧
    jsGet (generateSummaryHandler (.response (.ok (.obj [])))).body "success"
      = some (.bool true) ∧
    jsGet (generateSummaryHandler (.response (.ok (.obj [])))).body "summary" = none ∧
    jsGet (generateSummaryHandler (.response (.ok (.obj [])))).body "actionItems" = none :=
  ⟨rfl, rfl, rfl, rfl⟩

/-- C1 (amended): the Summary Generator either fails with a structured
error response (upstream failure or parse failure), or returns a success
response consisting of `success: true` followed by exactly the parsed
payload fields, with no validation: `summary` and `actionItems` are
present only when the model supplied them. -/
theorem generateSummary_trusts_parsed (u : UpstreamResult) :
    (∀ m, u = .failure m →
        generateSummaryHandler u = ⟨500, [("success", .bool false), ("error", .str m)]⟩) ∧
    (∀ m, u = .response (.error m) →
        generateSummaryHandler u = ⟨500, [("success", .bool false), ("error", .str m)]⟩) ∧
    (∀ v, u = .response (.ok v) →
        generateSummaryHandler u = ⟨200, ("success", .bool true) :: spreadFields v⟩) := by
  refine ⟨?_, ?_, ?_⟩
  all_goals intro x h
  all_goals subst h
  all_goals rfl

/-- C1 witness: a well-formed parsed payload is spread into a full
success response. -/
theorem generateSummary_trusts_parsed_witness :
    generateSummaryHandler
        (.response (.ok (.obj [("summary", .str "done"), ("actionItems", .arr [])])))
      = ⟨200, [("success", .bool true), ("summary", .str "done"), ("actionItems", .arr [])]⟩ :=
  (generateSummary_trusts_parsed
      (.response (.ok (.obj [("summary", .str "done"), ("actionItems", .arr [])])))).2.2
    (.obj [("summary", .str "done"), ("actionItems", .arr [])]) rfl

/-- C2: the Email Renderer is deterministic and side-effect-free: two
invocations on identical (summary, actionItems, recipients) triples
produce byte-identical HTML. -/
theorem formatEmailContent_deterministic (s1 s2 : String) (a1 a2 : List ActionItem)
    (r1 r2 : List Recipient) (hs : s1 = s2) (ha : a1 = a2) (hr : r1 = r2) :
    formatEmailContent s1 a1 r1 = formatEmailContent s2 a2 r2 := by
  subst hs
  subst ha
  subst hr
  rfl

/-- C2 witness: determinism at a concrete triple. -/
theorem formatEmailContent_deterministic_witness :
    ("a\nb" : String) = "a\nb" ∧
    formatEmailContent "a\nb" [⟨some "i", some "o", none⟩] [.str "x@y.z"]
      = formatEmailContent "a\nb" [⟨some "i", some "o", none⟩] [.str "x@y.z"] :=
  ⟨rfl, formatEmailContent_deterministic "a\nb" "a\nb" _ _ _ _ rfl rfl rfl⟩

/-- C3: the upload handler classifies each file of the batch by its
lower-cased filename extension: `.txt` yields a transcript entry with the
raw text, `.csv` yields a contacts entry with the parsed rows, and any
other extension is omitted from the output without error. -/
theorem upload_classification (files : List UploadedFile) (_h : files.length ≤ 10) :
    uploadHandler files = ⟨true, files.filterMap classifyFile⟩ ∧
    (∀ f : UploadedFile, toLowerStr (extname f.originalname) = ".txt" →
        classifyFile f = some ⟨f.originalname, "transcript", .text f.data⟩) ∧
    (∀ f : UploadedFile, toLowerStr (extname f.originalname) = ".csv" →
        classifyFile f = some ⟨f.originalname, "contacts", .contacts (parseCSV f.data)⟩) ∧
    (∀ f : UploadedFile, toLowerStr (extname f.originalname) ≠ ".txt" →
        toLowerStr (extname f.originalname) ≠ ".csv" → classifyFile f = none) := by
  refine ⟨?_, ?_, ?_, ?_⟩
  · unfold uploadHandler
    rw [processUpload_eq]
  · intro f hf
    simp [classifyFile, hf]
  · intro f hf
    simp [classifyFile, hf]
  · intro f h1 h2
    simp [classifyFile, h1, h2]

/-- C3 witness: a batch with an upper-case `.TXT` transcript, a `.csv`
contact list and a `.png` file yields exactly the two tagged entries. -/
theorem upload_classification_witness :
    ([(⟨"notes.TXT", "hello"⟩ : UploadedFile), ⟨"contacts.csv", "name,email"⟩,
        ⟨"image.png", "x"⟩].length ≤ 10) ∧
    uploadHandler [⟨"notes.TXT", "hello"⟩, ⟨"contacts.csv", "name,email"⟩, ⟨"image.png", "x"⟩]
      = ⟨true, [⟨"notes.TXT", "transcript", .text "hello"⟩,
          ⟨"contacts.csv", "contacts", .contacts []⟩]⟩ := by
  refine ⟨by decide, ?_⟩
  rw [(upload_classification
      [⟨"notes.TXT", "hello"⟩, ⟨"contacts.csv", "name,email"⟩, ⟨"image.png", "x"⟩]
      (by decide)).1]
  rfl

/-- C4: the renderer emits exactly the concatenation of one table row per
action item in input order; a missing `timeline` renders the literal
"Not specified" in the timeline cell; a missing `owner` or `item`
renders the JS missing-value text "undefined" in that cell, and no case
raises an error. -/
theorem renderer_rows_per_item (summary : String) (items : List ActionItem)
    (recipients : List Recipient) :
    formatEmailContent summary items recipients
      = (resendHtmlBeforeRecipients ++ recipientsList recipients ++ resendHtmlAfterRecipients ++
          summary.replace "\n" "<br>" ++ htmlAfterSummary)
        ++ strConcat (items.map actionItemRow) ++ emailFooter ∧
    (∀ item : ActionItem, item.timeline = none →
        actionItemRow item = rowBeforeItem ++ jsInterp item.item ++ rowBeforeOwner ++
          jsInterp item.owner ++ rowBeforeTimeline ++ "Not specified" ++ rowClose) ∧
    (∀ item : ActionItem, item.owner = none →
        actionItemRow item = rowBeforeItem ++ jsInterp item.item ++ rowBeforeOwner ++
          "undefined" ++ rowBeforeTimeline ++ jsOrElse item.timeline "Not specified" ++ rowClose) ∧
    (∀ item : ActionItem, item.item = none →
        actionItemRow item = rowBeforeItem ++ "undefined" ++ rowBeforeOwner ++
          jsInterp item.owner ++ rowBeforeTimeline ++ jsOrElse item.timeline "Not specified" ++
          rowClose) := by
  refine ⟨?_, ?_, ?_, ?_⟩
  · have h0 : formatEmailContent summary items recipients
        = items.foldl (fun acc item => acc ++ actionItemRow item)
            (resendHtmlBeforeRecipients ++ recipientsList recipients ++
              resendHtmlAfterRecipients ++ summary.replace "\n" "<br>" ++ htmlAfterSummary)
          ++ emailFooter := rfl
    rw [h0, foldl_actionItemRow]
  · intro item ht
    simp [actionItemRow, jsOrElse, ht]
  · intro item ho
    simp [actionItemRow, jsInterp, ho]
  · intro item hi
    simp [actionItemRow, jsInterp, hi]

/-- C4 witness: a row with a missing timeline shows "Not specified"; a
row with a missing owner shows "undefined" and raises no error. -/
theorem renderer_rows_per_item_witness :
    ((⟨some "Draft report", some "Alice", none⟩ : ActionItem).timeline = none) ∧
    actionItemRow ⟨some "Draft report", some "Alice", none⟩
      = rowBeforeItem ++ "Draft report" ++ rowBeforeOwner ++ "Alice" ++ rowBeforeTimeline ++
        "Not specified" ++ rowClose ∧
    actionItemRow ⟨some "Draft report", none, some "Q3"⟩
      = rowBeforeItem ++ "Draft report" ++ rowBeforeOwner ++ "undefined" ++ rowBeforeTimeline ++
        "Q3" ++ rowClose :=
  ⟨rfl,
   (renderer_rows_per_item "s" [] []).2.1 ⟨some "Draft report", some "Alice", none⟩ rfl,
   (renderer_rows_per_item "s" [] []).2.2.1 ⟨some "Draft report", none, some "Q3"⟩ rfl⟩

/-- C5 counterexample: a record whose `email` field is present but empty
is not normalized to that email: `'' || r` is falsy, so the record
itself is coerced and the display string is "[object Object]". -/
theorem normalizeRecipient_empty_email_not_preferred :
    normalizeRecipient (.record (some "") []) = "[object Object]" ∧
    ¬ normalizeRecipient (.record (some "") []) = "" :=
  ⟨rfl, by decide⟩

/-- C5 (amended): a bare string recipient is used verbatim; a record with
a non-empty `email` field is normalized to that email; a record whose
`email` field is absent, and likewise one whose `email` field is empty,
falls back to the string coercion "[object Object]" of the record.
Every recipient shape is accepted without error. -/
theorem normalizeRecipient_amended (r : Recipient) :
    (∀ s, r = .str s → normalizeRecipient r = s) ∧
    (∀ e rest, r = .record (some e) rest → e ≠ "" → normalizeRecipient r = e) ∧
    (∀ rest, r = .record none rest → normalizeRecipient r = "[object Object]") ∧
    (∀ rest, r = .record (some "") rest → normalizeRecipient r = "[object Object]") := by
  refine ⟨?_, ?_, ?_, ?_⟩
  · intro s h
    subst h
    rfl
  · intro e rest h he
    subst h
    simp [normalizeRecipient, he]
  · intro rest h
    subst h
    rfl
  · intro rest h
    subst h
    rfl

/-- C5 witness: normalization at the three recipient shapes. -/
theorem normalizeRecipient_amended_witness :
    normalizeRecipient (.str "a@x.com") = "a@x.com" ∧
    (("b@x.com" : String) ≠ "" ∧ normalizeRecipient (.record (some "b@x.com") []) = "b@x.com") ∧
    normalizeRecipient (.record none [("name", "C")]) = "[object Object]" :=
  ⟨(normalizeRecipient_amended (.str "a@x.com")).1 "a@x.com" rfl,
   ⟨by decide,
    (normalizeRecipient_amended (.record (some "b@x.com") [])).2.1 "b@x.com" [] rfl (by decide)⟩,
   (normalizeRecipient_amended (.record none [("name", "C")])).2.2.1 [("name", "C")] rfl⟩

/-- C6: with an empty recipient list the banner is the literal
"No recipients selected"; with a non-empty list it is the display
strings joined with ", "; the rendered document embeds exactly that
banner. -/
theorem recipientsBanner_fallback (recipients : List Recipient) (summary : String)
    (items : List ActionItem) :
    (recipients = [] → recipientsList recipients = "No recipients selected") ∧
    (recipients ≠ [] →
        recipientsList recipients = String.intercalate ", " (recipients.map normalizeRecipient)) ∧
    formatEmailContent summary items recipients
      = resendHtmlBeforeRecipients ++ recipientsList recipients ++
        (resendHtmlAfterRecipients ++ summary.replace "\n" "<br>" ++ htmlAfterSummary ++
          strConcat (items.map actionItemRow) ++ emailFooter) := by
  refine ⟨?_, ?_, ?_⟩
  · intro h
    subst h
    rfl
  · intro h
    cases recipients with
    | nil => exact absurd rfl h
    | cons x tl => simp [recipientsList]
  · have h0 : formatEmailContent summary items recipients
        = items.foldl (fun acc item => acc ++ actionItemRow item)
            (resendHtmlBeforeRecipients ++ recipientsList recipients ++
              resendHtmlAfterRecipients ++ summary.replace "\n" "<br>" ++ htmlAfterSummary)
          ++ emailFooter := rfl
    rw [h0, foldl_actionItemRow]
    simp [String.append_assoc]

/-- C6 witness: the banner at an empty and at a two-element recipient
list. -/
theorem recipientsBanner_fallback_witness :
    recipientsList [] = "No recipients selected" ∧
    recipientsList [.str "a@example.com", .record (some "b@example.com") []]
      = "a@example.com, b@example.com" := by
  refine ⟨(recipientsBanner_fallback [] "s" []).1 rfl, ?_⟩
  rw [(recipientsBanner_fallback [.str "a@example.com", .record (some "b@example.com") []]
      "s" []).2.1 (List.cons_ne_nil _ _)]
  rfl

/-- C7: in single-recipient redirect mode the dispatcher issues exactly
one delivery call, addressed to the fixed operator address, whatever the
input recipient list; the email body embeds the true intended-recipient
list via the renderer banner; and a successful result names the operator
address as the delivery target. -/
theorem sendEmailsResend_redirect (recipients : List Recipient) (summary : String)
    (items : List ActionItem) (outcome : ResendOutcome) :
    (sendEmailsResend true recipients summary items outcome).1.length = 1 ∧
    (∀ c ∈ (sendEmailsResend true recipients summary items outcome).1,
        c.toAddr = testEmail ∧
        c.html = formatEmailContent summary items recipients ∧
        ∃ a b, c.html = a ++ recipientsList recipients ++ b) ∧
    (∀ d, outcome = .ok d →
        (sendEmailsResend true recipients summary items outcome).2.message
          = some ("Email sent to " ++ testEmail ++
              " with intended recipients listed in the email body")) := by
  have hbanner : ∃ a b,
      formatEmailContent summary items recipients = a ++ recipientsList recipients ++ b := by
    refine ⟨resendHtmlBeforeRecipients,
      resendHtmlAfterRecipients ++ summary.replace "\n" "<br>" ++ htmlAfterSummary ++
        strConcat (items.map actionItemRow) ++ emailFooter, ?_⟩
    have h0 : formatEmailContent summary items recipients
        = items.foldl (fun acc item => acc ++ actionItemRow item)
            (resendHtmlBeforeRecipients ++ recipientsList recipients ++
              resendHtmlAfterRecipients ++ summary.replace "\n" "<br>" ++ htmlAfterSummary)
          ++ emailFooter := rfl
    rw [h0, foldl_actionItemRow]
    simp [String.append_assoc]
  cases outcome with
  | ok d =>
      have hred : sendEmailsResend true recipients summary items (.ok d)
          = ([⟨"Meeting Transcript Utility <markgleasonwork@gmail.com>", testEmail,
                "Meeting Summary and Action Items",
                formatEmailContent summary items recipients⟩],
             ⟨200, true, none,
               some ("Email sent to " ++ testEmail ++
                 " with intended recipients listed in the email body")⟩) := rfl
      refine ⟨rfl, ?_, ?_⟩
      · intro c hc
        rw [hred, List.mem_singleton] at hc
        subst hc
        exact ⟨rfl, rfl, hbanner⟩
      · intro d2 h2
        rfl
  | err m =>
      have hred : sendEmailsResend true recipients summary items (.err m)
          = ([⟨"Meeting Transcript Utility <markgleasonwork@gmail.com>", testEmail,
                "Meeting Summary and Action Items",
                formatEmailContent summary items recipients⟩],
             ⟨400, false, some m, none⟩) := rfl
      refine ⟨rfl, ?_, ?_⟩
      · intro c hc
        rw [hred, List.mem_singleton] at hc
        subst hc
        exact ⟨rfl, rfl, hbanner⟩
      · intro d2 h2
        exact absurd h2 (by simp)

/-- C7 witness: redirect dispatch at a concrete recipient list issues one
call, addressed to the operator address, and reports that address. -/
theorem sendEmailsResend_redirect_witness :
    (sendEmailsResend true [.str "real@x.com"] "s" [] (.ok "id")).1.length = 1 ∧
    (sendEmailsResend true [.str "real@x.com"] "s" [] (.ok "id")).1.map SendCall.toAddr
      = [testEmail] ∧
    (sendEmailsResend true [.str "real@x.com"] "s" [] (.ok "id")).2.message
      = some ("Email sent to " ++ testEmail ++
          " with intended recipients listed in the email body") :=
  ⟨(sendEmailsResend_redirect [.str "real@x.com"] "s" [] (.ok "id")).1, rfl,
   (sendEmailsResend_redirect [.str "real@x.com"] "s" [] (.ok "id")).2.2 "id" rfl⟩

/-- C8: in direct multi-send mode, delivery calls are issued
sequentially, one per recipient in list order; when every call succeeds
the operation reports success after calling each recipient once; when a
call fails, the calls already issued stay issued, no further call is
attempted, and the operation fails reporting exactly the first error
encountered. -/
theorem sendEmailsNodemailer_sequential (fromAddr : Option String) (summary : String)
    (items : List ActionItem) (send : NMSendCall → Except String Unit) :
    (∀ recipients : List Recipient,
        (∀ x ∈ recipients,
            send (mkNMCall fromAddr (formatEmailContentNM summary items) x) = .ok ()) →
        sendEmailsNodemailer fromAddr recipients summary items send
          = (recipients.map (mkNMCall fromAddr (formatEmailContentNM summary items)),
             ⟨200, true, none, some "Emails sent successfully"⟩)) ∧
    (∀ (p : List Recipient) (r : Recipient) (rest : List Recipient) (e : String),
        (∀ x ∈ p, send (mkNMCall fromAddr (formatEmailContentNM summary items) x) = .ok ()) →
        send (mkNMCall fromAddr (formatEmailContentNM summary items) r) = .error e →
        sendEmailsNodemailer fromAddr (p ++ r :: rest) summary items send
          = ((p ++ [r]).map (mkNMCall fromAddr (formatEmailContentNM summary items)),
             ⟨500, false, some e, none⟩)) := by
  constructor
  · intro recipients h
    unfold sendEmailsNodemailer
    rw [nmLoop_ok fromAddr (formatEmailContentNM summary items) send recipients h []]
    simp
  · intro p r rest e hp hr
    unfold sendEmailsNodemailer
    rw [nmLoop_err fromAddr (formatEmailContentNM summary items) send r rest e hr p hp []]
    simp

/-- C8 witness: with three recipients where the second send fails, the
dispatcher issues exactly the first two calls in order and reports the
second call's error. -/
theorem sendEmailsNodemailer_sequential_witness :
    sendEmailsNodemailer (some "from@x.com")
        [.record (some "good@x.com") [], .record (some "bad@x.com") [],
          .record (some "later@x.com") []]
        "s" [] (fun c => if c.toAddr = some "bad@x.com" then .error "boom" else .ok ())
      = ([⟨some "from@x.com", some "good@x.com", nmSubject, formatEmailContentNM "s" []⟩,
          ⟨some "from@x.com", some "bad@x.com", nmSubject, formatEmailContentNM "s" []⟩],
         ⟨500, false, some "boom", none⟩) := by
  have h := (sendEmailsNodemailer_sequential (some "from@x.com") "s" []
      (fun c => if c.toAddr = some "bad@x.com" then .error "boom" else .ok ())).2
      [.record (some "good@x.com") []] (.record (some "bad@x.com") [])
      [.record (some "later@x.com") []] "boom"
      (by
        intro x hx
        rw [List.mem_singleton] at hx
        subst hx
        rfl)
      rfl
  exact h

/-- C9: when the delivery credential is absent, the Resend-variant
dispatch endpoint does not crash: it issues no delivery call and returns
a structured 500 failure naming the missing credential, for every
request. -/
theorem sendEmailsResend_missing_credential (recipients : List Recipient) (summary : String)
    (items : List ActionItem) (outcome : ResendOutcome) :
    sendEmailsResend false recipients summary items outcome
      = ([], ⟨500, false,
          some "Resend API key not configured. Please add RESEND_API_KEY to environment variables.",
          none⟩) := rfl

/-- C10: the renderer is not total at its public interface: a non-string
summary argument or a non-array actionItems argument makes it throw
instead of producing HTML; only the recipients argument has a default
(empty list, applied when it is absent), and with well-shaped arguments
the result is exactly the HTML of the total renderer. -/
theorem formatEmailContentDyn_notTotal (s : JSArg String) (ai : JSArg (List ActionItem))
    (rs : Option (List Recipient)) :
    (∀ v, s = .notA v →
        formatEmailContentDyn s ai rs = .error ("TypeError: cannot call replace on " ++ v)) ∧
    (∀ t v, s = .isA t → ai = .notA v →
        formatEmailContentDyn s ai rs = .error ("TypeError: cannot call forEach on " ++ v)) ∧
    (∀ v, ai = .notA v → ∃ m, formatEmailContentDyn s ai rs = .error m) ∧
    (∀ t items, s = .isA t → ai = .isA items →
        formatEmailContentDyn s ai rs = .ok (formatEmailContent t items (rs.getD []))) ∧
    formatEmailContentDyn s ai none = formatEmailContentDyn s ai (some []) := by
  refine ⟨?_, ?_, ?_, ?_, rfl⟩
  · intro v h
    subst h
    rfl
  · intro t v hs ha
    subst hs
    subst ha
    rfl
  · intro v h
    subst h
    cases s with
    | isA t => exact ⟨"TypeError: cannot call forEach on " ++ v, rfl⟩
    | notA w => exact ⟨"TypeError: cannot call replace on " ++ w, rfl⟩
  · intro t items hs ha
    subst hs
    subst ha
    rfl

/-- C10 witness: an undefined summary throws, an undefined actionItems
throws, and well-shaped arguments with an absent recipients argument
render with the empty-list default. -/
theorem formatEmailContentDyn_notTotal_witness :
    formatEmailContentDyn (.notA "undefined") (.isA []) (some [])
      = .error "TypeError: cannot call replace on undefined" ∧
    formatEmailContentDyn (.isA "s") (.notA "undefined") (some [])
      = .error "TypeError: cannot call forEach on undefined" ∧
    formatEmailContentDyn (.isA "s") (.isA []) none
      = .ok (formatEmailContent "s" [] []) :=
  ⟨(formatEmailContentDyn_notTotal (.notA "undefined") (.isA []) (some [])).1 "undefined" rfl,
   (formatEmailContentDyn_notTotal (.isA "s") (.notA "undefined") (some [])).2.1
     "s" "undefined" rfl rfl,
   (formatEmailContentDyn_notTotal (.isA "s") (.isA []) none).2.2.2.1 "s" [] rfl rfl⟩
